import Mathlib

/-!
Shallow embedding of `src/cp_zonos.py`, a Streamlit app that chains a
speech-to-text backend (Whisper) and a text-to-speech backend (gTTS).

The app is UI glue over per-session state (`st.session_state`), a temp-file
based filesystem, and two opaque external backends.  We model:

* the session state (fields `whisper_model`, `tts_model`, `transcription`,
  `audio_path`) together with the filesystem of temp files and the
  `st.cache_resource` cache of `load_whisper_model`;
* each user-triggered handler (Load/Reload Models, Transcribe Audio,
  Clear on the STT tab, Generate Speech, Clear Text on the TTS tab) as a
  state-transition function that also emits an ordered list of observable
  effects (messages shown, backend calls made, files written/unlinked,
  playback and download offers);
* the external backends as opaque outcomes passed in as operation
  parameters: `whisper_model.transcribe` either returns a text or raises,
  and the gTTS call either yields a byte buffer or raises.

Temp files are identified by natural numbers drawn from a fresh-name
counter, mirroring `tempfile.NamedTemporaryFile`'s unique naming; the
filesystem is the finite set of currently existing temp files.
-/

namespace Zonos

/-- A loaded Whisper model handle; `whisper.load_model size` is opaque, so the
handle is identified by the size it was loaded with. -/
abbrev WhisperModel := String

/-- Observable effects emitted by the handlers, in program order. -/
inductive Effect where
  | errorMsg (msg : String)
  | warnMsg (msg : String)
  | infoMsg (msg : String)
  | successMsg (msg : String)
  | whisperLoad (size : String)
  | tmpWrite (fid : Nat)
  | unlink (fid : Nat)
  | gttsCall (text lang : String) (slow : Bool)
  | xttsCall (text : String)
  | play (data : List Nat)
  | download (data : List Nat) (fileName mimeType : String)
deriving DecidableEq, Repr

/-- The per-session state (`st.session_state` of `src/cp_zonos.py` lines 84-93)
together with the temp-file filesystem and the `st.cache_resource` cache of
`load_whisper_model`.  `files` is the set of existing temp files, `nextFile`
the fresh-name counter of `tempfile.NamedTemporaryFile`. -/
structure AppState where
  whisper_model : Option WhisperModel
  tts_model : Option Unit
  transcription : String
  audio_path : Option Nat
  files : Finset Nat
  nextFile : Nat
  whisperCache : List (String × Option WhisperModel)
deriving DecidableEq

/-- Initial session state (lines 84-93): no models, empty transcription,
no audio path, empty filesystem and cache. -/
def initState : AppState :=
  { whisper_model := none
    tts_model := none
    transcription := ""
    audio_path := none
    files := ∅
    nextFile := 0
    whisperCache := [] }

/-- The `languages` dict of lines 138-151: UI label to wire code. -/
def languages : List (String × String) :=
  [("English (US)", "en"),
   ("English (UK)", "en-gb"),
   ("Spanish", "es"),
   ("French", "fr"),
   ("German", "de"),
   ("Italian", "it"),
   ("Portuguese", "pt"),
   ("Russian", "ru"),
   ("Japanese", "ja"),
   ("Korean", "ko"),
   ("Chinese", "zh-CN"),
   ("Hindi", "hi")]

/-- Line 154: `language_code = languages[selected_language]`; the selectbox
only offers keys of the dict, so we return an `Option`. -/
def languageCode (label : String) : Option String :=
  (languages.find? (fun p => p.1 == label)).map Prod.snd

/-- Line 289: the language actually handed to `gTTS` is
`language_code.split('-')[0]`, i.e. the longest prefix of the code before the
first dash (the whole code when it has no dash). -/
def gttsLang (code : String) : String :=
  { data := code.data.takeWhile (fun ch => ch != '-') }

/-- The language code supplied to the synthesis backend when `label` is
selected: the dict lookup of line 154 followed by the split of line 289. -/
def suppliedLang (label : String) : Option String :=
  (languageCode label).map gttsLang

/-- `load_whisper_model` (lines 110-117) under its `@st.cache_resource`
decorator, which memoises the result keyed by `model_size`.  `loadOk` stands
for whether the opaque `whisper.load_model` call succeeds; on failure the
exception is caught, an error message is shown and `None` is returned (and
cached, since the function itself does not raise).  Returns the result, the
updated cache and the emitted effects. -/
def load_whisper_model (loadOk : Bool) (cache : List (String × Option WhisperModel))
    (model_size : String) :
    Option WhisperModel × List (String × Option WhisperModel) × List Effect :=
  match cache.find? (fun p => p.1 == model_size) with
  | some p => (p.2, cache, [])
  | none =>
      if loadOk then
        (some model_size, (model_size, some model_size) :: cache,
          [Effect.whisperLoad model_size])
      else
        (none, (model_size, none) :: cache,
          [Effect.whisperLoad model_size,
           Effect.errorMsg "Error loading Whisper model"])

/-- `load_tts_model` (lines 120-122): shows a warning and returns `None`;
the XTTS backend is never instantiated. -/
def load_tts_model : Option Unit × List Effect :=
  (none,
   [Effect.warnMsg "XTTS model loading is currently disabled due to PyTorch 2.6 compatibility issues. Using Google Text-to-Speech instead."])

deriving instance DecidableEq for Except

/-- A user-triggered action.  Opaque backend outcomes travel with the action:
`result` of a transcription is the outcome of `whisper_model.transcribe`
(`Except.error` models a raised exception), and `result` of a synthesis is the
outcome of the gTTS call (a byte buffer, or a raised exception). -/
inductive Op where
  | loadModels (size : String) (loadOk : Bool)
  | transcribeClick (hasAudio : Bool) (result : Except String String)
  | clearSTT
  | generateSpeech (textInput : String) (label : String) (slow : Bool)
      (result : Except String (List Nat))
  | clearTTS
deriving DecidableEq

/-- The Load/Reload Models button handler (lines 125-133): loads the Whisper
model through the cache, shows a success message when a model came back, then
skips XTTS, stores `None` into `tts_model` and shows the gTTS info message. -/
def loadModelsStep (s : AppState) (size : String) (loadOk : Bool) :
    AppState × List Effect :=
  let r := load_whisper_model loadOk s.whisperCache size
  let msgs := match r.1 with
    | some _ => [Effect.successMsg "Whisper model loaded successfully!"]
    | none => []
  ({ s with whisper_model := r.1, whisperCache := r.2.1, tts_model := none },
   r.2.2 ++ msgs ++
     [Effect.infoMsg "Using Google Text-to-Speech (gTTS) for speech synthesis"])

/-- The Transcribe Audio button handler (lines 207-235).  The button is only
rendered when a Whisper model is loaded (the `else` branch starting at line
174), so the handler is a no-op otherwise.  With audio present it writes the
clip to a fresh temp file, then calls `transcribe`: on success it stores the
transcription and the audio path; on a raised exception it shows the error
and then unlinks the temp file. -/
def transcribeStep (s : AppState) (hasAudio : Bool) (result : Except String String) :
    AppState × List Effect :=
  if s.whisper_model = none then (s, [])
  else if hasAudio = false then
    (s, [Effect.errorMsg "Please upload or record an audio file first!"])
  else
    let fid := s.nextFile
    let s1 := { s with files := insert fid s.files, nextFile := s.nextFile + 1 }
    match result with
    | Except.ok txt =>
        ({ s1 with transcription := txt, audio_path := some fid },
         [Effect.tmpWrite fid, Effect.successMsg "Transcription complete!"])
    | Except.error e =>
        ({ s1 with files := s1.files.erase fid },
         [Effect.tmpWrite fid, Effect.errorMsg e, Effect.unlink fid])

/-- The Clear button handler on the Speech-to-Text tab (lines 238-246), also
only rendered when a Whisper model is loaded: resets the transcription, then
unlinks the referenced file if the path is set and the file exists (the
unlink is wrapped in try/except pass), and clears the path. -/
def clearSTTStep (s : AppState) : AppState × List Effect :=
  if s.whisper_model = none then (s, [])
  else
    match s.audio_path with
    | some fid =>
        if fid ∈ s.files then
          ({ s with transcription := "", files := s.files.erase fid, audio_path := none },
           [Effect.unlink fid])
        else
          ({ s with transcription := "", audio_path := none }, [])
    | none => ({ s with transcription := "", audio_path := none }, [])

/-- The Generate Speech button handler (lines 281-313): with non-empty text it
calls gTTS with `language_code.split('-')[0]`, plays the buffer and offers it
for download as `generated_speech.mp3` with mime `audio/mp3`; a raised
exception is caught and shown.  With empty text it shows a warning and makes
no backend call.  Session state is never written by this handler. -/
def generateSpeechStep (s : AppState) (textInput label : String) (slow : Bool)
    (result : Except String (List Nat)) : AppState × List Effect :=
  match languageCode label with
  | none => (s, [])
  | some code =>
      if textInput = "" then
        (s, [Effect.warnMsg "Please enter some text to convert to speech."])
      else
        match result with
        | Except.ok bytes =>
            (s, [Effect.gttsCall textInput (gttsLang code) slow,
                 Effect.play bytes,
                 Effect.successMsg "Speech generated successfully!",
                 Effect.download bytes "generated_speech.mp3" "audio/mp3"])
        | Except.error e =>
            (s, [Effect.gttsCall textInput (gttsLang code) slow,
                 Effect.errorMsg e])

/-- The Clear Text button handler on the Text-to-Speech tab (lines 315-318):
resets the transcription only. -/
def clearTTSStep (s : AppState) : AppState × List Effect :=
  ({ s with transcription := "" }, [])

/-- One user action: dispatch to the handler. -/
def step (s : AppState) : Op → AppState × List Effect
  | Op.loadModels size ok => loadModelsStep s size ok
  | Op.transcribeClick hasAudio result => transcribeStep s hasAudio result
  | Op.clearSTT => clearSTTStep s
  | Op.generateSpeech t label slow r => generateSpeechStep s t label slow r
  | Op.clearTTS => clearTTSStep s

/-- Run a sequence of user actions. -/
def run (s : AppState) : List Op → AppState
  | [] => s
  | op :: ops => run (step s op).1 ops

/-- The concatenated effect trace of a sequence of user actions. -/
def trace (s : AppState) : List Op → List Effect
  | [] => []
  | op :: ops => (step s op).2 ++ trace (step s op).1 ops

/-- Well-formedness of the fresh-name discipline: every existing file and any
referenced path is below the fresh-name counter. -/
def Inv (s : AppState) : Prop :=
  (∀ f ∈ s.files, f < s.nextFile) ∧
  (∀ fid, s.audio_path = some fid → fid < s.nextFile)

/-- A session in which the base Whisper model has been loaded, a clip was
transcribed into temp file 0 and the path is referenced; used to instantiate
theorems at a concrete state. -/
def loadedState : AppState :=
  { whisper_model := some "base"
    tts_model := none
    transcription := "hello world"
    audio_path := some 0
    files := {0}
    nextFile := 1
    whisperCache := [("base", some "base")] }

/- ------------------------------------------------------------------ -/
/- Helper lemmas                                                       -/
/- ------------------------------------------------------------------ -/

theorem languageCode_mem (label c : String) (h : languageCode label = some c) :
    (label, c) ∈ languages := by
  unfold languageCode at h
  cases hf : languages.find? (fun p => p.1 == label) with
  | none => rw [hf] at h; exact absurd h (by simp)
  | some p =>
      have hpred := List.find?_some hf
      have hmem := List.mem_of_find?_eq_some hf
      rw [hf] at h
      have h2 : p.2 = c := by simpa using h
      have h1 : p.1 = label := by simpa using hpred
      have hp : (label, c) = p := by
        cases p with
        | mk a b => simp_all
      rw [hp]
      exact hmem

theorem languageCode_injOn (l1 l2 c : String)
    (h1 : languageCode l1 = some c) (h2 : languageCode l2 = some c) : l1 = l2 := by
  have m1 := languageCode_mem l1 c h1
  have m2 := languageCode_mem l2 c h2
  have key : ∀ p ∈ languages, ∀ q ∈ languages, p.2 = q.2 → p.1 = q.1 := by decide
  exact key (l1, c) m1 (l2, c) m2 rfl

/- ------------------------------------------------------------------ -/
/- Claim theorems                                                      -/
/- ------------------------------------------------------------------ -/

/-- C1, counterexample: selecting "English (UK)" has wire code `en-gb` in the
`languages` dict, but the synthesis call is invoked with `en` (the code is
split at the dash before being handed to gTTS), so the language code supplied
to the backend does not equal the documented wire code. -/
theorem C1_wire_code_counterexample :
    languageCode "English (UK)" = some "en-gb" ∧
    suppliedLang "English (UK)" = some "en" ∧
    (step initState (Op.generateSpeech "hello" "English (UK)" false (Except.ok [0]))).2 =
      [Effect.gttsCall "hello" "en" false, Effect.play [0],
       Effect.successMsg "Speech generated successfully!",
       Effect.download [0] "generated_speech.mp3" "audio/mp3"] ∧
    ("en" : String) ≠ "en-gb" := by
  refine ⟨by decide, by decide, ?_, by decide⟩
  decide

/-- C1, amended: the 12-label mapping of the `languages` dict is a pure
injective function with the documented wire codes, but the language code
supplied to the synthesis backend is the primary subtag of the selected wire
code (the part before the first dash): selecting "English (UK)" invokes
synthesis with `en`, and "Chinese" with `zh`. -/
theorem C1_language_mapping (l1 l2 c label code t : String) (slow : Bool)
    (bytes : List Nat) (s : AppState)
    (h1 : languageCode l1 = some c) (h2 : languageCode l2 = some c)
    (hl : languageCode label = some code) (ht : ¬t = "") :
    l1 = l2 ∧
    suppliedLang label = some (gttsLang code) ∧
    Effect.gttsCall t (gttsLang code) slow ∈
      (step s (Op.generateSpeech t label slow (Except.ok bytes))).2 ∧
    suppliedLang "English (UK)" = some "en" ∧
    suppliedLang "Chinese" = some "zh" := by
  refine ⟨languageCode_injOn l1 l2 c h1 h2, ?_, ?_, by decide, by decide⟩
  · unfold suppliedLang
    rw [hl]
    rfl
  · show Effect.gttsCall t (gttsLang code) slow ∈
      (generateSpeechStep s t label slow (Except.ok bytes)).2
    unfold generateSpeechStep
    rw [hl]
    simp [ht]

/-- C1 witness: instantiation at the label "Chinese". -/
theorem C1_language_mapping_witness :
    ("Chinese" : String) = "Chinese" ∧
    suppliedLang "Chinese" = some (gttsLang "zh-CN") ∧
    Effect.gttsCall "hi there" (gttsLang "zh-CN") true ∈
      (step initState (Op.generateSpeech "hi there" "Chinese" true (Except.ok [1, 2]))).2 ∧
    suppliedLang "English (UK)" = some "en" ∧
    suppliedLang "Chinese" = some "zh" :=
  C1_language_mapping "Chinese" "Chinese" "zh-CN" "Chinese" "zh-CN" "hi there" true
    [1, 2] initState (by decide) (by decide) (by decide) (by decide)

/-- C2: submitting empty text shows a warning, performs no backend call and
leaves the session state unchanged; submitting non-empty text attempts
synthesis (a gTTS call appears in the effects, whatever the outcome). -/
theorem C2_empty_text_no_synthesis (s : AppState) (label code t : String) (slow : Bool)
    (r : Except String (List Nat)) (hl : languageCode label = some code)
    (ht : ¬t = "") :
    (step s (Op.generateSpeech "" label slow r)).1 = s ∧
    (step s (Op.generateSpeech "" label slow r)).2 =
      [Effect.warnMsg "Please enter some text to convert to speech."] ∧
    Effect.gttsCall t (gttsLang code) slow ∈
      (step s (Op.generateSpeech t label slow r)).2 := by
  refine ⟨?_, ?_, ?_⟩
  · show (generateSpeechStep s "" label slow r).1 = s
    unfold generateSpeechStep
    rw [hl]
    simp
  · show (generateSpeechStep s "" label slow r).2 = _
    unfold generateSpeechStep
    rw [hl]
    simp
  · show Effect.gttsCall t (gttsLang code) slow ∈
      (generateSpeechStep s t label slow r).2
    unfold generateSpeechStep
    rw [hl]
    cases r with
    | ok bytes => simp [ht]
    | error e => simp [ht]

/-- C2 witness: instantiation at the label "French" and text "bonjour". -/
theorem C2_empty_text_no_synthesis_witness :
    (step initState (Op.generateSpeech "" "French" false (Except.ok [7]))).1 = initState ∧
    (step initState (Op.generateSpeech "" "French" false (Except.ok [7]))).2 =
      [Effect.warnMsg "Please enter some text to convert to speech."] ∧
    Effect.gttsCall "bonjour" (gttsLang "fr") false ∈
      (step initState (Op.generateSpeech "bonjour" "French" false (Except.ok [7]))).2 :=
  C2_empty_text_no_synthesis initState "French" "fr" "bonjour" false (Except.ok [7])
    (by decide) (by decide)

/-- C3: the Speech-to-Text Clear action resets the transcript to the empty
string, deletes the referenced temp file from the filesystem when one exists,
clears the path reference; and when no file is referenced it is a no-op on
the filesystem with no effects at all (in particular no error). -/
theorem C3_clear_session (s : AppState) (hm : ¬s.whisper_model = none) :
    (step s Op.clearSTT).1.transcription = "" ∧
    (step s Op.clearSTT).1.audio_path = none ∧
    (∀ fid, s.audio_path = some fid → fid ∉ (step s Op.clearSTT).1.files) ∧
    (s.audio_path = none →
      (step s Op.clearSTT).1.files = s.files ∧ (step s Op.clearSTT).2 = []) := by
  have hstep : step s Op.clearSTT = clearSTTStep s := rfl
  rw [hstep]
  unfold clearSTTStep
  rw [if_neg hm]
  cases hp : s.audio_path with
  | none => simp
  | some fid =>
      by_cases hf : fid ∈ s.files
      · simp [hf]
      · simp [hf]

/-- C3 witness: instantiation at a loaded session referencing temp file 0,
and at the same session with no referenced file. -/
theorem C3_clear_session_witness :
    (step loadedState Op.clearSTT).1.transcription = "" ∧
    (step loadedState Op.clearSTT).1.audio_path = none ∧
    0 ∉ (step loadedState Op.clearSTT).1.files ∧
    (step { loadedState with audio_path := none } Op.clearSTT).1.files =
      AppState.files { loadedState with audio_path := none } ∧
    (step { loadedState with audio_path := none } Op.clearSTT).2 = [] :=
  have c1 := C3_clear_session loadedState (by decide)
  have c2 := C3_clear_session { loadedState with audio_path := none } (by decide)
  ⟨c1.1, c1.2.1, c1.2.2.1 0 (by decide),
   (c2.2.2.2 (by decide)).1, (c2.2.2.2 (by decide)).2⟩

/-- C4, counterexample: at a concrete failing transcription the handler
surfaces the error message first (index 1 of the effect trace) and unlinks
the temp file only afterwards (index 2), so the file is not deleted before
the error is surfaced. -/
theorem C4_cleanup_order_counterexample :
    (step { initState with whisper_model := some "base" }
        (Op.transcribeClick true (Except.error "transcription failed"))).2 =
      [Effect.tmpWrite 0, Effect.errorMsg "transcription failed", Effect.unlink 0] ∧
    List.indexOf (Effect.errorMsg "transcription failed")
        (step { initState with whisper_model := some "base" }
          (Op.transcribeClick true (Except.error "transcription failed"))).2 <
      List.indexOf (Effect.unlink 0)
        (step { initState with whisper_model := some "base" }
          (Op.transcribeClick true (Except.error "transcription failed"))).2 := by
  decide

/-- C4, amended: for every failing transcription attempt (model loaded, audio
present, the transcribe call raises), the error is surfaced as a visible
non-fatal message and the temp file created for the attempt is deleted in the
same handler, after the error message rather than before; the attempt's file
does not remain in the filesystem. -/
theorem C4_failure_cleanup (s : AppState) (e : String) (hm : ¬s.whisper_model = none) :
    (step s (Op.transcribeClick true (Except.error e))).2 =
      [Effect.tmpWrite s.nextFile, Effect.errorMsg e, Effect.unlink s.nextFile] ∧
    s.nextFile ∉ (step s (Op.transcribeClick true (Except.error e))).1.files := by
  show (transcribeStep s true (Except.error e)).2 = _ ∧
    s.nextFile ∉ (transcribeStep s true (Except.error e)).1.files
  unfold transcribeStep
  rw [if_neg hm]
  exact ⟨rfl, Finset.not_mem_erase s.nextFile _⟩

/-- C4 witness: instantiation at a loaded session. -/
theorem C4_failure_cleanup_witness :
    (step loadedState (Op.transcribeClick true (Except.error "decode failed"))).2 =
      [Effect.tmpWrite loadedState.nextFile, Effect.errorMsg "decode failed",
       Effect.unlink loadedState.nextFile] ∧
    loadedState.nextFile ∉
      (step loadedState (Op.transcribeClick true (Except.error "decode failed"))).1.files :=
  C4_failure_cleanup loadedState "decode failed" (by decide)

/-- After any call of `load_whisper_model`, the updated cache holds the
returned value under the requested size. -/
theorem load_whisper_model_find (loadOk : Bool)
    (cache : List (String × Option WhisperModel)) (size : String) :
    (load_whisper_model loadOk cache size).2.1.find? (fun p => p.1 == size) =
      some (size, (load_whisper_model loadOk cache size).1) := by
  unfold load_whisper_model
  cases hf : cache.find? (fun p => p.1 == size) with
  | some p =>
      have hpred := List.find?_some hf
      cases p with
      | mk a b =>
          have h1 : a = size := by simpa using hpred
          subst h1
          simp [hf]
  | none =>
      cases loadOk <;> simp [List.find?]

/-- C5: requesting the same Whisper model size twice, the second request
performs no underlying load (`whisperLoad` never appears in its effects) and
returns the cached handle (the stored model is unchanged). -/
theorem C5_cached_load (s : AppState) (size : String) (ok1 ok2 : Bool) :
    (∀ sz, Effect.whisperLoad sz ∉
      (step (step s (Op.loadModels size ok1)).1 (Op.loadModels size ok2)).2) ∧
    (step (step s (Op.loadModels size ok1)).1 (Op.loadModels size ok2)).1.whisper_model =
      (step s (Op.loadModels size ok1)).1.whisper_model := by
  have key : ∀ s1 : AppState,
      s1.whisperCache.find? (fun p => p.1 == size) = some (size, s1.whisper_model) →
      (∀ sz, Effect.whisperLoad sz ∉ (loadModelsStep s1 size ok2).2) ∧
      (loadModelsStep s1 size ok2).1.whisper_model = s1.whisper_model := by
    intro s1 hfind
    have hload : load_whisper_model ok2 s1.whisperCache size =
        (s1.whisper_model, s1.whisperCache, []) := by
      unfold load_whisper_model
      rw [hfind]
    refine ⟨?_, ?_⟩
    · intro sz
      cases h : s1.whisper_model <;> simp [loadModelsStep, hload, h]
    · simp [loadModelsStep, hload]
  have h1 : step s (Op.loadModels size ok1) = loadModelsStep s size ok1 := rfl
  have h2 : step (loadModelsStep s size ok1).1 (Op.loadModels size ok2) =
      loadModelsStep (loadModelsStep s size ok1).1 size ok2 := rfl
  rw [h1, h2]
  refine key (loadModelsStep s size ok1).1 ?_
  have hc : (loadModelsStep s size ok1).1.whisperCache =
      (load_whisper_model ok1 s.whisperCache size).2.1 := rfl
  have hw : (loadModelsStep s size ok1).1.whisper_model =
      (load_whisper_model ok1 s.whisperCache size).1 := rfl
  rw [hc, hw]
  exact load_whisper_model_find ok1 s.whisperCache size

/-- C5 witness: instantiation at the initial state and size "base". -/
theorem C5_cached_load_witness :
    Effect.whisperLoad "base" ∉
      (step (step initState (Op.loadModels "base" true)).1
        (Op.loadModels "base" false)).2 ∧
    (step (step initState (Op.loadModels "base" true)).1
        (Op.loadModels "base" false)).1.whisper_model =
      (step initState (Op.loadModels "base" true)).1.whisper_model :=
  ⟨(C5_cached_load initState "base" true false).1 "base",
   (C5_cached_load initState "base" true false).2⟩

/-- C6: a raised transcription exception and a raised synthesis exception are
both caught and surfaced as a visible message, and the session state keeps
the transcript and source-audio path it had before the failed attempt (the
synthesis handler changes no state at all). -/
theorem C6_error_atomicity (s : AppState) (e t label code : String) (slow : Bool)
    (hm : ¬s.whisper_model = none) (hl : languageCode label = some code) (ht : ¬t = "") :
    (step s (Op.transcribeClick true (Except.error e))).1.transcription = s.transcription ∧
    (step s (Op.transcribeClick true (Except.error e))).1.audio_path = s.audio_path ∧
    Effect.errorMsg e ∈ (step s (Op.transcribeClick true (Except.error e))).2 ∧
    (step s (Op.generateSpeech t label slow (Except.error e))).1 = s ∧
    Effect.errorMsg e ∈ (step s (Op.generateSpeech t label slow (Except.error e))).2 := by
  have h1 : step s (Op.transcribeClick true (Except.error e)) =
      transcribeStep s true (Except.error e) := rfl
  have h2 : step s (Op.generateSpeech t label slow (Except.error e)) =
      generateSpeechStep s t label slow (Except.error e) := rfl
  rw [h1, h2]
  unfold transcribeStep generateSpeechStep
  rw [if_neg hm, hl]
  simp [ht]

/-- C6 witness: instantiation at a loaded session. -/
theorem C6_error_atomicity_witness :
    (step loadedState (Op.transcribeClick true (Except.error "boom"))).1.transcription =
      loadedState.transcription ∧
    (step loadedState (Op.transcribeClick true (Except.error "boom"))).1.audio_path =
      loadedState.audio_path ∧
    Effect.errorMsg "boom" ∈
      (step loadedState (Op.transcribeClick true (Except.error "boom"))).2 ∧
    (step loadedState (Op.generateSpeech "hello" "German" false (Except.error "boom"))).1 =
      loadedState ∧
    Effect.errorMsg "boom" ∈
      (step loadedState (Op.generateSpeech "hello" "German" false (Except.error "boom"))).2 :=
  C6_error_atomicity loadedState "boom" "hello" "German" "de" false
    (by decide) (by decide) (by decide)

/-- C7: a successful synthesis offers for download exactly the generated byte
buffer, under the name `generated_speech.mp3` with mime `audio/mp3`; any
download effect in the trace carries that buffer, name and mime. -/
theorem C7_download_offer (s : AppState) (t label code : String) (slow : Bool)
    (bytes : List Nat) (hl : languageCode label = some code) (ht : ¬t = "") :
    Effect.download bytes "generated_speech.mp3" "audio/mp3" ∈
      (step s (Op.generateSpeech t label slow (Except.ok bytes))).2 ∧
    ∀ b n m, Effect.download b n m ∈
        (step s (Op.generateSpeech t label slow (Except.ok bytes))).2 →
      b = bytes ∧ n = "generated_speech.mp3" ∧ m = "audio/mp3" := by
  have h1 : step s (Op.generateSpeech t label slow (Except.ok bytes)) =
      generateSpeechStep s t label slow (Except.ok bytes) := rfl
  rw [h1]
  unfold generateSpeechStep
  rw [hl]
  refine ⟨by simp [ht], ?_⟩
  intro b n m hmem
  simp [ht] at hmem
  exact ⟨hmem.1, hmem.2.1, hmem.2.2⟩

/-- C7 witness: instantiation at the label "Spanish". -/
theorem C7_download_offer_witness :
    Effect.download [3, 4] "generated_speech.mp3" "audio/mp3" ∈
      (step initState (Op.generateSpeech "hola" "Spanish" false (Except.ok [3, 4]))).2 ∧
    ([3, 4] : List Nat) = [3, 4] ∧
    ("generated_speech.mp3" : String) = "generated_speech.mp3" ∧
    ("audio/mp3" : String) = "audio/mp3" :=
  have c := C7_download_offer initState "hola" "Spanish" "es" false [3, 4]
    (by decide) (by decide)
  ⟨c.1, c.2 [3, 4] "generated_speech.mp3" "audio/mp3" c.1⟩

/-- The Generate Speech handler never writes session state. -/
theorem generateSpeechStep_state (s : AppState) (t label : String) (slow : Bool)
    (r : Except String (List Nat)) : (generateSpeechStep s t label slow r).1 = s := by
  unfold generateSpeechStep
  cases languageCode label with
  | none => rfl
  | some code =>
      by_cases ht : t = ""
      · simp [ht]
      · cases r <;> simp [ht]

/-- The Transcribe handler preserves the fresh-name invariant. -/
theorem transcribeStep_Inv (s : AppState) (ha : Bool) (r : Except String String)
    (h : Inv s) : Inv (transcribeStep s ha r).1 := by
  unfold transcribeStep
  by_cases hw : s.whisper_model = none
  · rw [if_pos hw]; exact h
  · rw [if_neg hw]
    cases ha with
    | false => exact h
    | true =>
        cases r with
        | ok txt =>
            refine ⟨?_, ?_⟩
            · intro f hmem
              rcases Finset.mem_insert.mp hmem with h1 | h2
              · rw [h1]; exact Nat.lt_succ_self _
              · exact Nat.lt_succ_of_lt (h.1 f h2)
            · intro fid2 hfid2
              have h0 : s.nextFile = fid2 := Option.some.inj hfid2
              rw [← h0]
              exact Nat.lt_succ_self _
        | error e =>
            refine ⟨?_, ?_⟩
            · intro f hmem
              rcases Finset.mem_insert.mp (Finset.mem_of_mem_erase hmem) with h1 | h2
              · rw [h1]; exact Nat.lt_succ_self _
              · exact Nat.lt_succ_of_lt (h.1 f h2)
            · intro fid2 hfid2
              exact Nat.lt_succ_of_lt (h.2 fid2 hfid2)

/-- The STT Clear handler preserves the fresh-name invariant. -/
theorem clearSTTStep_Inv (s : AppState) (h : Inv s) : Inv (clearSTTStep s).1 := by
  unfold clearSTTStep
  split
  · exact h
  · split
    · split
      · refine ⟨?_, ?_⟩
        · intro f hmem
          exact h.1 f (Finset.mem_of_mem_erase hmem)
        · intro fid2 hfid2
          exact Option.noConfusion hfid2
      · refine ⟨h.1, ?_⟩
        intro fid2 hfid2
        exact Option.noConfusion hfid2
    · refine ⟨h.1, ?_⟩
      intro fid2 hfid2
      exact Option.noConfusion hfid2

/-- Every handler preserves the fresh-name invariant. -/
theorem step_Inv (s : AppState) (op : Op) (h : Inv s) : Inv (step s op).1 := by
  cases op with
  | loadModels size ok => exact h
  | transcribeClick ha r => exact transcribeStep_Inv s ha r h
  | clearSTT => exact clearSTTStep_Inv s h
  | generateSpeech t label slow r =>
      show Inv (generateSpeechStep s t label slow r).1
      rw [generateSpeechStep_state]
      exact h
  | clearTTS => exact h

/-- No handler ever changes `tts_model` away from `None`. -/
theorem step_tts_none (s : AppState) (op : Op) (h : s.tts_model = none) :
    (step s op).1.tts_model = none := by
  cases op with
  | loadModels size ok => rfl
  | transcribeClick ha r =>
      show (transcribeStep s ha r).1.tts_model = none
      unfold transcribeStep
      by_cases hw : s.whisper_model = none
      · rw [if_pos hw]; exact h
      · rw [if_neg hw]
        cases ha with
        | false => exact h
        | true => cases r with
          | ok txt => exact h
          | error e => exact h
  | clearSTT =>
      show (clearSTTStep s).1.tts_model = none
      unfold clearSTTStep
      split
      · exact h
      · split
        · split
          · exact h
          · exact h
        · exact h
  | generateSpeech t label slow r =>
      show (generateSpeechStep s t label slow r).1.tts_model = none
      rw [generateSpeechStep_state]
      exact h
  | clearTTS => exact h

/-- `tts_model` stays `None` along any run. -/
theorem run_tts_none (ops : List Op) (s : AppState) (h : s.tts_model = none) :
    (run s ops).tts_model = none := by
  induction ops generalizing s with
  | nil => exact h
  | cons op ops ih => exact ih (step s op).1 (step_tts_none s op h)

/-- No handler ever emits a call to the XTTS voice-cloning backend. -/
theorem step_no_xtts (s : AppState) (op : Op) (txt : String) :
    Effect.xttsCall txt ∉ (step s op).2 := by
  cases op with
  | loadModels size ok =>
      show Effect.xttsCall txt ∉ (loadModelsStep s size ok).2
      unfold loadModelsStep load_whisper_model
      cases hf : s.whisperCache.find? (fun p => p.1 == size) with
      | some p => cases hp : p.2 <;> simp [hp]
      | none => cases ok <;> simp
  | transcribeClick ha r =>
      show Effect.xttsCall txt ∉ (transcribeStep s ha r).2
      unfold transcribeStep
      by_cases hw : s.whisper_model = none
      · simp [hw]
      · rw [if_neg hw]
        cases ha with
        | false => simp
        | true => cases r <;> simp
  | clearSTT =>
      show Effect.xttsCall txt ∉ (clearSTTStep s).2
      unfold clearSTTStep
      by_cases hw : s.whisper_model = none
      · simp [hw]
      · rw [if_neg hw]
        cases hp : s.audio_path with
        | none => simp
        | some fid => by_cases hf : fid ∈ s.files <;> simp [hf]
  | generateSpeech t label slow r =>
      show Effect.xttsCall txt ∉ (generateSpeechStep s t label slow r).2
      unfold generateSpeechStep
      cases languageCode label with
      | none => simp
      | some code =>
          by_cases ht : t = ""
          · simp [ht]
          · cases r <;> simp [ht]
  | clearTTS =>
      show Effect.xttsCall txt ∉ (clearTTSStep s).2
      simp [clearTTSStep]

/-- No run from any state ever calls the XTTS voice-cloning backend. -/
theorem trace_no_xtts (ops : List Op) (s : AppState) (txt : String) :
    Effect.xttsCall txt ∉ trace s ops := by
  induction ops generalizing s with
  | nil => simp [trace]
  | cons op ops ih =>
      intro hmem
      have hmem2 : Effect.xttsCall txt ∈ (step s op).2 ++ trace (step s op).1 ops := hmem
      rcases List.mem_append.mp hmem2 with h1 | h2
      · exact step_no_xtts s op txt h1
      · exact ih (step s op).1 h2

/-- C8: temp files are uniquely named (the fresh name is never an existing
file); a successful transcription points the session's source-audio path at
the new file, which exists; a referenced existing file is removed by no
operation other than the STT Clear action (no automatic expiry); and every
operation preserves the fresh-name invariant. -/
theorem C8_temp_file_lifecycle (s : AppState) (h : Inv s) :
    s.nextFile ∉ s.files ∧
    (∀ txt, ¬s.whisper_model = none →
      (step s (Op.transcribeClick true (Except.ok txt))).1.audio_path = some s.nextFile ∧
      s.nextFile ∈ (step s (Op.transcribeClick true (Except.ok txt))).1.files) ∧
    (∀ fid op, s.audio_path = some fid → fid ∈ s.files → ¬op = Op.clearSTT →
      fid ∈ (step s op).1.files) ∧
    (∀ op, Inv (step s op).1) := by
  refine ⟨?_, ?_, ?_, fun op => step_Inv s op h⟩
  · intro hmem
    exact absurd (h.1 s.nextFile hmem) (lt_irrefl s.nextFile)
  · intro txt hm
    show (transcribeStep s true (Except.ok txt)).1.audio_path = some s.nextFile ∧
      s.nextFile ∈ (transcribeStep s true (Except.ok txt)).1.files
    unfold transcribeStep
    rw [if_neg hm]
    exact ⟨rfl, Finset.mem_insert_self s.nextFile s.files⟩
  · intro fid op hpath hmem hop
    cases op with
    | loadModels size ok => exact hmem
    | clearTTS => exact hmem
    | clearSTT => exact absurd rfl hop
    | generateSpeech t label slow r =>
        show fid ∈ (generateSpeechStep s t label slow r).1.files
        rw [generateSpeechStep_state]
        exact hmem
    | transcribeClick ha r =>
        show fid ∈ (transcribeStep s ha r).1.files
        unfold transcribeStep
        by_cases hw : s.whisper_model = none
        · rw [if_pos hw]; exact hmem
        · rw [if_neg hw]
          cases ha with
          | false => exact hmem
          | true =>
              cases r with
              | ok txt => exact Finset.mem_insert_of_mem hmem
              | error e =>
                  apply Finset.mem_erase_of_ne_of_mem
                  · intro heq
                    have hlt := h.2 fid hpath
                    rw [heq] at hlt
                    exact lt_irrefl _ hlt
                  · exact Finset.mem_insert_of_mem hmem

/-- C8 witness: instantiation at a loaded session referencing temp file 0. -/
theorem C8_temp_file_lifecycle_witness :
    loadedState.nextFile ∉ loadedState.files ∧
    (step loadedState (Op.transcribeClick true (Except.ok "hi"))).1.audio_path =
      some loadedState.nextFile ∧
    loadedState.nextFile ∈
      (step loadedState (Op.transcribeClick true (Except.ok "hi"))).1.files ∧
    0 ∈ (step loadedState Op.clearTTS).1.files ∧
    Inv (step loadedState Op.clearTTS).1 :=
  have h : Inv loadedState :=
    ⟨by decide, fun fid hfid => by rw [← Option.some.inj hfid]; decide⟩
  have c := C8_temp_file_lifecycle loadedState h
  ⟨c.1, (c.2.1 "hi" (by decide)).1, (c.2.1 "hi" (by decide)).2,
   c.2.2.1 0 Op.clearTTS (by decide) (by decide) (by decide), c.2.2.2 Op.clearTTS⟩

/-- C9: the XTTS loader returns no model; the session's `tts_model` is `None`
after any sequence of operations from the initial state; no run ever calls
the XTTS backend; and every non-empty synthesis request is served by the
gTTS cloud backend. -/
theorem C9_xtts_disabled (ops : List Op) (s : AppState) (t label code txt : String)
    (slow : Bool) (r : Except String (List Nat))
    (hl : languageCode label = some code) (ht : ¬t = "") :
    load_tts_model.1 = none ∧
    (run initState ops).tts_model = none ∧
    Effect.xttsCall txt ∉ trace initState ops ∧
    Effect.gttsCall t (gttsLang code) slow ∈
      (step s (Op.generateSpeech t label slow r)).2 := by
  refine ⟨rfl, run_tts_none ops initState rfl, trace_no_xtts ops initState txt, ?_⟩
  show Effect.gttsCall t (gttsLang code) slow ∈ (generateSpeechStep s t label slow r).2
  unfold generateSpeechStep
  rw [hl]
  cases r <;> simp [ht]

/-- C9 witness: instantiation at a concrete three-action run. -/
theorem C9_xtts_disabled_witness :
    load_tts_model.1 = none ∧
    (run initState [Op.loadModels "base" true,
      Op.transcribeClick true (Except.ok "hello world"),
      Op.generateSpeech "hello world" "English (US)" false (Except.ok [9])]).tts_model =
      none ∧
    Effect.xttsCall "hello world" ∉ trace initState [Op.loadModels "base" true,
      Op.transcribeClick true (Except.ok "hello world"),
      Op.generateSpeech "hello world" "English (US)" false (Except.ok [9])] ∧
    Effect.gttsCall "hello world" (gttsLang "en") false ∈
      (step loadedState
        (Op.generateSpeech "hello world" "English (US)" false (Except.ok [9]))).2 :=
  C9_xtts_disabled
    [Op.loadModels "base" true,
     Op.transcribeClick true (Except.ok "hello world"),
     Op.generateSpeech "hello world" "English (US)" false (Except.ok [9])]
    loadedState "hello world" "English (US)" "en" "hello world" false (Except.ok [9])
    (by decide) (by decide)

/-- C10: the Text-to-Speech Clear Text action resets only the transcript to
the empty string; the source-audio path and the filesystem of temp files are
unchanged (as is every other field), and no effects are emitted — unlike the
Speech-to-Text Clear action, which also clears the path and unlinks the
file. -/
theorem C10_clearText_frame (s : AppState) :
    (step s Op.clearTTS).1 = { s with transcription := "" } ∧
    (step s Op.clearTTS).1.audio_path = s.audio_path ∧
    (step s Op.clearTTS).1.files = s.files ∧
    (step s Op.clearTTS).2 = [] :=
  ⟨rfl, rfl, rfl, rfl⟩

end Zonos
